import Mathlib

/-!
Shallow embedding of the orchestrator abstraction and validation layer:
the CrewAI and LangGraph adapters (`validate`, `execute`, `stream`,
`get_status`, `stop`) and the orchestrator factory.

Python values are modelled by the inductive `Val`; dictionaries with string
keys are association lists preserving insertion order.  Operations that can
raise a Python exception (`in` / subscripting / iteration on an unsuitable
value) return `Except Unit`, where `Except.error ()` stands for a raised
`TypeError`/`KeyError`.
-/

/-- A Python value, as the adapters consume them: `None`, booleans,
integers, strings, lists, and string-keyed dictionaries. -/
inductive Val where
  | pynone : Val
  | pybool : Bool → Val
  | pyint : Int → Val
  | pystr : String → Val
  | pylist : List Val → Val
  | pydict : List (String × Val) → Val

mutual

/-- Python `==` on values (structural equality). -/
def Val.beq : Val → Val → Bool
  | .pynone, .pynone => true
  | .pybool a, .pybool b => a = b
  | .pyint a, .pyint b => a = b
  | .pystr a, .pystr b => a = b
  | .pylist a, .pylist b => Val.beqList a b
  | .pydict a, .pydict b => Val.beqDict a b
  | _, _ => false

/-- Elementwise `==` on lists of values. -/
def Val.beqList : List Val → List Val → Bool
  | [], [] => true
  | a :: as, b :: bs => Val.beq a b && Val.beqList as bs
  | _, _ => false

/-- Entrywise `==` on dictionaries. -/
def Val.beqDict : List (String × Val) → List (String × Val) → Bool
  | [], [] => true
  | (k, v) :: as, (m, w) :: bs => k = m && Val.beq v w && Val.beqDict as bs
  | _, _ => false

end

instance : BEq Val := ⟨Val.beq⟩

/-- Dictionary lookup (Python `d[k]` / `k in d` on a dict); first binding
of the key wins, matching a Python dict's unique keys. -/
def lookupKey {α : Type} : List (String × α) → String → Option α
  | [], _ => none
  | (k', v) :: rest, k => if k' = k then some v else lookupKey rest k

/-- Dictionary update `d[k] = v`: replaces in place when the key exists,
otherwise appends, matching Python's insertion-order semantics. -/
def setKey {α : Type} : List (String × α) → String → α → List (String × α)
  | [], k, v => [(k, v)]
  | (k', v') :: rest, k, v =>
      if k' = k then (k, v) :: rest else (k', v') :: setKey rest k v

/-- Is `needle` a prefix of `hay` (over characters)? -/
def chPre : List Char → List Char → Bool
  | [], _ => true
  | _ :: _, [] => false
  | c :: cs, d :: ds => c = d && chPre cs ds

/-- Is `needle` a contiguous substring of `hay` (over characters)? -/
def chSub : List Char → List Char → Bool
  | needle, [] => needle.isEmpty
  | needle, c :: rest => chPre needle (c :: rest) || chSub needle rest

/-- Python's `needle in hay` for strings: substring containment. -/
def strHasSub (hay needle : String) : Bool :=
  chSub needle.toList hay.toList

/-- Python's membership test `k in v` for a string key `k`.  Defined on
dicts (key lookup), lists (element equality) and strings (substring);
raises `TypeError` on any other value. -/
def pyContains (v : Val) (k : String) : Except Unit Bool :=
  match v with
  | .pydict d => .ok (lookupKey d k).isSome
  | .pylist l => .ok (l.contains (.pystr k))
  | .pystr s => .ok (strHasSub s k)
  | _ => .error ()

/-- Python's subscript `v[k]` for a string key `k`: succeeds only on a
dict that has the key (`KeyError` otherwise); on every non-dict a string
index raises `TypeError`. -/
def pySubscript (v : Val) (k : String) : Except Unit Val :=
  match v with
  | .pydict d =>
      match lookupKey d k with
      | some x => .ok x
      | none => .error ()
  | _ => .error ()

/-- Python's `v.get(k, default)`: defined on dicts only
(`AttributeError` on anything else). -/
def pyGet (v : Val) (k : String) (default : Val) : Except Unit Val :=
  match v with
  | .pydict d => .ok ((lookupKey d k).getD default)
  | _ => .error ()

/-- Python iteration `for x in v`: lists yield elements, strings yield
one-character strings, dicts yield their keys; everything else raises
`TypeError`. -/
def pyIter (v : Val) : Except Unit (List Val) :=
  match v with
  | .pylist l => .ok l
  | .pystr s => .ok (s.toList.map (fun c => .pystr (String.mk [c])))
  | .pydict d => .ok (d.map (fun p => .pystr p.1))
  | _ => .error ()

mutual

/-- Python `str(v)`, as interpolated into the adapters' f-strings. -/
def pyStrOf : Val → String
  | .pynone => "None"
  | .pybool b => if b then "True" else "False"
  | .pyint n => toString n
  | .pystr s => s
  | .pylist l => "[" ++ pyStrOfList l ++ "]"
  | .pydict d => "\x7b" ++ pyStrOfDict d ++ "\x7d"

/-- `repr` of a value, used for elements inside lists/dicts. -/
def pyReprOf : Val → String
  | .pynone => "None"
  | .pybool b => if b then "True" else "False"
  | .pyint n => toString n
  | .pystr s => "\x27" ++ s ++ "\x27"
  | .pylist l => "[" ++ pyStrOfList l ++ "]"
  | .pydict d => "\x7b" ++ pyStrOfDict d ++ "\x7d"

/-- Comma-separated `repr`s of list elements. -/
def pyStrOfList : List Val → String
  | [] => ""
  | [v] => pyReprOf v
  | v :: rest => pyReprOf v ++ ", " ++ pyStrOfList rest

/-- Comma-separated `repr`s of dict entries. -/
def pyStrOfDict : List (String × Val) → String
  | [] => ""
  | [(k, v)] => "\x27" ++ k ++ "\x27: " ++ pyReprOf v
  | (k, v) :: rest => "\x27" ++ k ++ "\x27: " ++ pyReprOf v ++ ", " ++ pyStrOfDict rest

end

/-- One error per required field missing from the item dictionary `d`,
in the order of `fields`; `kind` and `i` render the f-string
`"<kind> <i> missing required field: <field>"`. -/
def requiredFieldErrors (kind : String) (i : Nat) (fields : List String)
    (d : List (String × Val)) : List String :=
  fields.filterMap fun fld =>
    if (lookupKey d fld).isNone then
      some (kind ++ " " ++ toString i ++ " missing required field: " ++ fld)
    else none

/-- A run record as stored in an adapter's `self.workflows` map:
`{"config": ..., "status": ..., "progress": ...}`. -/
structure RunRecord where
  config : List (String × Val)
  status : String
  progress : Int

/-- An adapter instance's run store `self.workflows`. -/
abbrev Workflows := List (String × RunRecord)

namespace CrewAIAdapter

/-- The per-agent loop of `CrewAIAdapter.validate`: each agent must be a
dictionary carrying name, role, goal, backstory and model. -/
def agentLoop : Nat → List Val → List String
  | _, [] => []
  | i, .pydict a :: rest =>
      requiredFieldErrors "Agent" i ["name", "role", "goal", "backstory", "model"] a
        ++ agentLoop (i + 1) rest
  | i, _ :: rest =>
      ("Agent " ++ toString i ++ " must be a dictionary") :: agentLoop (i + 1) rest

/-- The per-task loop of `CrewAIAdapter.validate`: each task must be a
dictionary carrying name, description, expectedOutput and agent, and a
present `agent` value must occur among the declared agent names. -/
def taskLoop (agentNames : List Val) : Nat → List Val → List String
  | _, [] => []
  | i, .pydict t :: rest =>
      requiredFieldErrors "Task" i ["name", "description", "expectedOutput", "agent"] t
        ++ (match lookupKey t "agent" with
            | some av =>
                if agentNames.contains av then []
                else ["Task " ++ toString i ++ " references unknown agent: " ++ pyStrOf av]
            | none => [])
        ++ taskLoop agentNames (i + 1) rest
  | i, _ :: rest =>
      ("Task " ++ toString i ++ " must be a dictionary") :: taskLoop agentNames (i + 1) rest

/-- Presence / type / non-emptiness checks for `agents`
(the `if "agents" not in workflow ... elif ... elif` block). -/
def agentsPresenceErrors (workflow : Val) : Except Unit (List String) :=
  (pyContains workflow "agents").bind fun m =>
    if m then
      (pySubscript workflow "agents").bind fun v =>
        match v with
        | .pylist l => .ok (if l.length = 0 then ["At least one agent is required"] else [])
        | _ => .ok ["\x27agents\x27 must be a list"]
    else .ok ["Missing \x27agents\x27 field in workflow"]

/-- Presence / type / non-emptiness checks for `tasks`. -/
def tasksPresenceErrors (workflow : Val) : Except Unit (List String) :=
  (pyContains workflow "tasks").bind fun m =>
    if m then
      (pySubscript workflow "tasks").bind fun v =>
        match v with
        | .pylist l => .ok (if l.length = 0 then ["At least one task is required"] else [])
        | _ => .ok ["\x27tasks\x27 must be a list"]
    else .ok ["Missing \x27tasks\x27 field in workflow"]

/-- The guarded agent-fields section
(`if "agents" in workflow and isinstance(workflow["agents"], list)`). -/
def agentFieldErrors (workflow : Val) : Except Unit (List String) :=
  (pyContains workflow "agents").bind fun m =>
    if m then
      (pySubscript workflow "agents").bind fun v =>
        match v with
        | .pylist l => .ok (agentLoop 0 l)
        | _ => .ok []
    else .ok []

/-- The comprehension
`[a.get("name") for a in workflow.get("agents", []) if isinstance(a, dict)]`. -/
def agentNamesOf (workflow : Val) : Except Unit (List Val) :=
  (pyGet workflow "agents" (.pylist [])).bind fun raw =>
    (pyIter raw).map fun l =>
      l.filterMap fun a =>
        match a with
        | .pydict d => some ((lookupKey d "name").getD .pynone)
        | _ => none

/-- The guarded task-fields-and-references section
(`if "tasks" in workflow and isinstance(workflow["tasks"], list)`). -/
def taskErrors (workflow : Val) : Except Unit (List String) :=
  (pyContains workflow "tasks").bind fun m =>
    if m then
      (pySubscript workflow "tasks").bind fun v =>
        match v with
        | .pylist l => (agentNamesOf workflow).map fun names => taskLoop names 0 l
        | _ => .ok []
    else .ok []

/-- The whole error-accumulation body of `CrewAIAdapter.validate` after
the `workflow` key has been extracted: the four sequential sections of
the source appended in source order. -/
def bodyErrors (workflow : Val) : Except Unit (List String) :=
  (agentsPresenceErrors workflow).bind fun e1 =>
    (tasksPresenceErrors workflow).bind fun e2 =>
      (agentFieldErrors workflow).bind fun e3 =>
        (taskErrors workflow).map fun e4 => e1 ++ e2 ++ e3 ++ e4

/-- `CrewAIAdapter.validate`: missing `workflow` short-circuits with one
error; otherwise the accumulated list decides the flag, and the error
component is `None` exactly when the list is empty. -/
def validate (config : List (String × Val)) : Except Unit (Bool × Option (List String)) :=
  match lookupKey config "workflow" with
  | none => .ok (false, some ["Missing \x27workflow\x27 field"])
  | some workflow =>
      (bodyErrors workflow).map fun errors =>
        (errors.isEmpty, if errors.isEmpty then none else some errors)

/-- `CrewAIAdapter.execute`: the fresh `uuid4` is passed in as
`workflow_id`; stores a running record at progress 0 and returns the
"started" acknowledgement dictionary together with the new store. -/
def execute (workflow_id : String) (config : List (String × Val))
    (st : Workflows) : Val × Workflows :=
  (.pydict [("workflow_id", .pystr workflow_id),
            ("status", .pystr "started"),
            ("message", .pystr "CrewAI workflow started successfully")],
   setKey st workflow_id ⟨config, "running", 0⟩)

/-- Subscript into the dictionary returned by `execute`
(`result["workflow_id"]`, which always succeeds on that result). -/
def valGet (v : Val) (k : String) : Val :=
  match v with
  | .pydict d => (lookupKey d k).getD .pynone
  | _ => .pynone

/-- `CrewAIAdapter.stream`: runs `execute` (mutating the store), then
yields the started/0 and completed/100 updates carrying
`result["workflow_id"]`. -/
def stream (workflow_id : String) (config : List (String × Val))
    (st : Workflows) : List Val × Workflows :=
  let r := execute workflow_id config st
  let wid := valGet r.1 "workflow_id"
  ([.pydict [("workflow_id", wid), ("status", .pystr "started"), ("progress", .pyint 0)],
    .pydict [("workflow_id", wid), ("status", .pystr "completed"), ("progress", .pyint 100)]],
   r.2)

/-- `CrewAIAdapter.get_status`: sentinel "not_found" record for unknown
ids, otherwise the stored status and progress; read-only on the store. -/
def get_status (workflow_id : String) (st : Workflows) : Val :=
  match lookupKey st workflow_id with
  | none =>
      .pydict [("workflow_id", .pystr workflow_id),
               ("status", .pystr "not_found"),
               ("error", .pystr "Workflow not found")]
  | some w =>
      .pydict [("workflow_id", .pystr workflow_id),
               ("status", .pystr w.status),
               ("progress", .pyint w.progress)]

/-- `CrewAIAdapter.stop`: `False` on an unknown id, otherwise sets the
record's status to "stopped" in place and returns `True`. -/
def stop (workflow_id : String) (st : Workflows) : Bool × Workflows :=
  match lookupKey st workflow_id with
  | none => (false, st)
  | some w => (true, setKey st workflow_id ⟨w.config, "stopped", w.progress⟩)

end CrewAIAdapter


namespace LangGraphAdapter

/-- The per-node loop of `LangGraphAdapter.validate`: each node must be a
dictionary carrying id, type and config. -/
def nodeLoop : Nat → List Val → List String
  | _, [] => []
  | i, .pydict a :: rest =>
      requiredFieldErrors "Node" i ["id", "type", "config"] a ++ nodeLoop (i + 1) rest
  | i, _ :: rest =>
      ("Node " ++ toString i ++ " must be a dictionary") :: nodeLoop (i + 1) rest

/-- The per-edge loop of `LangGraphAdapter.validate`: each edge must be a
dictionary carrying source and target, and present `source`/`target`
values must occur among the declared node ids. -/
def edgeLoop (nodeIds : List Val) : Nat → List Val → List String
  | _, [] => []
  | i, .pydict e :: rest =>
      requiredFieldErrors "Edge" i ["source", "target"] e
        ++ (match lookupKey e "source" with
            | some sv =>
                if nodeIds.contains sv then []
                else ["Edge " ++ toString i ++ " references unknown source node: " ++ pyStrOf sv]
            | none => [])
        ++ (match lookupKey e "target" with
            | some tv =>
                if nodeIds.contains tv then []
                else ["Edge " ++ toString i ++ " references unknown target node: " ++ pyStrOf tv]
            | none => [])
        ++ edgeLoop nodeIds (i + 1) rest
  | i, _ :: rest =>
      ("Edge " ++ toString i ++ " must be a dictionary") :: edgeLoop nodeIds (i + 1) rest

/-- Presence / type / non-emptiness checks for `nodes`. -/
def nodesPresenceErrors (workflow : Val) : Except Unit (List String) :=
  (pyContains workflow "nodes").bind fun m =>
    if m then
      (pySubscript workflow "nodes").bind fun v =>
        match v with
        | .pylist l => .ok (if l.length = 0 then ["At least one node is required"] else [])
        | _ => .ok ["\x27nodes\x27 must be a list"]
    else .ok ["Missing \x27nodes\x27 field in workflow (LangGraph)"]

/-- Presence / type checks for `edges` (an empty edge list is allowed). -/
def edgesPresenceErrors (workflow : Val) : Except Unit (List String) :=
  (pyContains workflow "edges").bind fun m =>
    if m then
      (pySubscript workflow "edges").bind fun v =>
        match v with
        | .pylist _ => .ok []
        | _ => .ok ["\x27edges\x27 must be a list"]
    else .ok ["Missing \x27edges\x27 field in workflow (LangGraph)"]

/-- The guarded node-fields section
(`if "nodes" in workflow and isinstance(workflow["nodes"], list)`). -/
def nodeFieldErrors (workflow : Val) : Except Unit (List String) :=
  (pyContains workflow "nodes").bind fun m =>
    if m then
      (pySubscript workflow "nodes").bind fun v =>
        match v with
        | .pylist l => .ok (nodeLoop 0 l)
        | _ => .ok []
    else .ok []

/-- The comprehension
`[n.get("id") for n in workflow.get("nodes", []) if isinstance(n, dict)]`. -/
def nodeIdsOf (workflow : Val) : Except Unit (List Val) :=
  (pyGet workflow "nodes" (.pylist [])).bind fun raw =>
    (pyIter raw).map fun l =>
      l.filterMap fun n =>
        match n with
        | .pydict d => some ((lookupKey d "id").getD .pynone)
        | _ => none

/-- The guarded edge-fields-and-references section
(`if "edges" in workflow and isinstance(workflow["edges"], list)`). -/
def edgeErrors (workflow : Val) : Except Unit (List String) :=
  (pyContains workflow "edges").bind fun m =>
    if m then
      (pySubscript workflow "edges").bind fun v =>
        match v with
        | .pylist l => (nodeIdsOf workflow).map fun ids => edgeLoop ids 0 l
        | _ => .ok []
    else .ok []

/-- The whole error-accumulation body of `LangGraphAdapter.validate`
after the `workflow` key has been extracted. -/
def bodyErrors (workflow : Val) : Except Unit (List String) :=
  (nodesPresenceErrors workflow).bind fun e1 =>
    (edgesPresenceErrors workflow).bind fun e2 =>
      (nodeFieldErrors workflow).bind fun e3 =>
        (edgeErrors workflow).map fun e4 => e1 ++ e2 ++ e3 ++ e4

/-- `LangGraphAdapter.validate`: missing `workflow` short-circuits with
one error; otherwise the accumulated list decides the flag. -/
def validate (config : List (String × Val)) : Except Unit (Bool × Option (List String)) :=
  match lookupKey config "workflow" with
  | none => .ok (false, some ["Missing \x27workflow\x27 field"])
  | some workflow =>
      (bodyErrors workflow).map fun errors =>
        (errors.isEmpty, if errors.isEmpty then none else some errors)

/-- `LangGraphAdapter.execute`: identical bookkeeping to the CrewAI
adapter, with its own acknowledgement message. -/
def execute (workflow_id : String) (config : List (String × Val))
    (st : Workflows) : Val × Workflows :=
  (.pydict [("workflow_id", .pystr workflow_id),
            ("status", .pystr "started"),
            ("message", .pystr "LangGraph workflow started successfully")],
   setKey st workflow_id ⟨config, "running", 0⟩)

/-- `LangGraphAdapter.stream`: like the CrewAI adapter's stream. -/
def stream (workflow_id : String) (config : List (String × Val))
    (st : Workflows) : List Val × Workflows :=
  let r := execute workflow_id config st
  let wid := CrewAIAdapter.valGet r.1 "workflow_id"
  ([.pydict [("workflow_id", wid), ("status", .pystr "started"), ("progress", .pyint 0)],
    .pydict [("workflow_id", wid), ("status", .pystr "completed"), ("progress", .pyint 100)]],
   r.2)

/-- `LangGraphAdapter.get_status`: sentinel "not_found" for unknown ids. -/
def get_status (workflow_id : String) (st : Workflows) : Val :=
  match lookupKey st workflow_id with
  | none =>
      .pydict [("workflow_id", .pystr workflow_id),
               ("status", .pystr "not_found"),
               ("error", .pystr "Workflow not found")]
  | some w =>
      .pydict [("workflow_id", .pystr workflow_id),
               ("status", .pystr w.status),
               ("progress", .pyint w.progress)]

/-- `LangGraphAdapter.stop`: `False` on an unknown id, otherwise sets the
record's status to "stopped" in place and returns `True`. -/
def stop (workflow_id : String) (st : Workflows) : Bool × Workflows :=
  match lookupKey st workflow_id with
  | none => (false, st)
  | some w => (true, setKey st workflow_id ⟨w.config, "stopped", w.progress⟩)

end LangGraphAdapter

/-- Python's `str.lower()`: character-wise lower-casing. -/
def strLower (s : String) : String :=
  String.mk (s.toList.map Char.toLower)

/-- The concrete adapter classes registrable with the factory. -/
inductive AdapterClass where
  | crewai : AdapterClass
  | langgraph : AdapterClass
deriving DecidableEq

namespace OrchestratorFactory

/-- The class-level `_orchestrators` mapping. -/
abbrev Registry := List (String × AdapterClass)

/-- `OrchestratorFactory.register`: stores the class under the
lower-cased framework name, overwriting any prior registration. -/
def register (reg : Registry) (framework : String) (cls : AdapterClass) : Registry :=
  setKey reg (strLower framework) cls

/-- `OrchestratorFactory.get_orchestrator`: lower-cases the requested
name, then either instantiates the registered class or raises
`ValueError` listing the registered names. -/
def get_orchestrator (reg : Registry) (framework : String) : Except String AdapterClass :=
  match lookupKey reg (strLower framework) with
  | none =>
      .error ("Framework \x27" ++ framework ++ "\x27 is not supported. Available frameworks: "
        ++ String.intercalate ", " (reg.map Prod.fst))
  | some cls => .ok cls

/-- `OrchestratorFactory.get_supported_frameworks`: the registered keys. -/
def get_supported_frameworks (reg : Registry) : List String :=
  reg.map Prod.fst

end OrchestratorFactory

/-- Scenario A: a fully well-formed CrewAI workflow definition. -/
def cfgScenarioA : List (String × Val) :=
  [("workflow", .pydict
    [("name", .pystr "W"),
     ("agents", .pylist
       [.pydict [("name", .pystr "a"), ("role", .pystr "r"), ("goal", .pystr "g"),
                 ("backstory", .pystr "b"), ("model", .pystr "m")]]),
     ("tasks", .pylist
       [.pydict [("name", .pystr "t"), ("description", .pystr "d"),
                 ("expectedOutput", .pystr "o"), ("agent", .pystr "a")]])])]

/-- Scenario C: a workflow body with no `agents` key and an empty task
list. -/
def cfgMissingAgents : List (String × Val) :=
  [("workflow", .pydict [("name", .pystr "W"), ("tasks", .pylist [])])]

/-- Scenario B: like Scenario A but the task references agent "ghost",
which no agent is named. -/
def cfgGhost : List (String × Val) :=
  [("workflow", .pydict
    [("name", .pystr "W"),
     ("agents", .pylist
       [.pydict [("name", .pystr "a"), ("role", .pystr "r"), ("goal", .pystr "g"),
                 ("backstory", .pystr "b"), ("model", .pystr "m")]]),
     ("tasks", .pylist
       [.pydict [("name", .pystr "t"), ("description", .pystr "d"),
                 ("expectedOutput", .pystr "o"), ("agent", .pystr "ghost")]])])]

/-- `cfgGhost` with the single agent renamed to "ghost" and nothing else
changed. -/
def cfgGhostRenamed : List (String × Val) :=
  [("workflow", .pydict
    [("name", .pystr "W"),
     ("agents", .pylist
       [.pydict [("name", .pystr "ghost"), ("role", .pystr "r"), ("goal", .pystr "g"),
                 ("backstory", .pystr "b"), ("model", .pystr "m")]]),
     ("tasks", .pylist
       [.pydict [("name", .pystr "t"), ("description", .pystr "d"),
                 ("expectedOutput", .pystr "o"), ("agent", .pystr "ghost")]])])]

/-- The LangGraph definition from the repository's own orchestrator
test: one node "node1" and one terminal edge whose target is "END". -/
def cfgEndEdge : List (String × Val) :=
  [("workflow", .pydict
    [("name", .pystr "Test Graph"),
     ("nodes", .pylist
       [.pydict [("id", .pystr "node1"), ("type", .pystr "agent"),
                 ("config", .pydict [])]]),
     ("edges", .pylist
       [.pydict [("source", .pystr "node1"), ("target", .pystr "END")]])])]

/-- A well-formed LangGraph definition: one node and an edge between
declared nodes only. -/
def cfgGraphOk : List (String × Val) :=
  [("workflow", .pydict
    [("name", .pystr "G"),
     ("nodes", .pylist
       [.pydict [("id", .pystr "node1"), ("type", .pystr "agent"),
                 ("config", .pydict [])],
        .pydict [("id", .pystr "node2"), ("type", .pystr "agent"),
                 ("config", .pydict [])]]),
     ("edges", .pylist
       [.pydict [("source", .pystr "node1"), ("target", .pystr "node2")]])])]

/-- Looking up the key just set finds the new value. -/
theorem lookupKey_setKey_self {α : Type} (l : List (String × α)) (k : String) (v : α) :
    lookupKey (setKey l k v) k = some v := by
  induction l with
  | nil => simp [setKey, lookupKey]
  | cons p rest ih =>
      obtain ⟨k', v'⟩ := p
      by_cases h : k' = k
      · simp [setKey, lookupKey, h]
      · simp [setKey, lookupKey, h, ih]

/-- Setting one key leaves every other key's lookup unchanged. -/
theorem lookupKey_setKey_ne {α : Type} (l : List (String × α)) (k k' : String) (v : α)
    (h : k' ≠ k) : lookupKey (setKey l k v) k' = lookupKey l k' := by
  induction l with
  | nil =>
      simp [setKey, lookupKey, Ne.symm h]
  | cons p rest ih =>
      obtain ⟨k0, v0⟩ := p
      by_cases h0 : k0 = k
      · subst h0
        simp [setKey, lookupKey, Ne.symm h]
      · simp only [setKey, lookupKey, if_neg h0]
        by_cases h1 : k0 = k'
        · simp [h1]
        · simp [h1, ih]

/-- Setting an absent key appends the binding at the end of the map. -/
theorem setKey_of_fresh {α : Type} (l : List (String × α)) (k : String) (v : α)
    (h : lookupKey l k = none) : setKey l k v = l ++ [(k, v)] := by
  induction l with
  | nil => simp [setKey]
  | cons p rest ih =>
      obtain ⟨k0, v0⟩ := p
      by_cases h0 : k0 = k
      · simp [lookupKey, h0] at h
      · simp only [lookupKey, if_neg h0] at h
        simp [setKey, h0, ih h]

/-- Setting a key that is present does not change the key sequence. -/
theorem mapFst_setKey {α : Type} (l : List (String × α)) (k : String) (v : α)
    (h : (lookupKey l k).isSome) : (setKey l k v).map Prod.fst = l.map Prod.fst := by
  induction l with
  | nil => simp [lookupKey] at h
  | cons p rest ih =>
      obtain ⟨k0, v0⟩ := p
      by_cases h0 : k0 = k
      · simp [setKey, h0]
      · simp only [lookupKey, if_neg h0] at h
        simp [setKey, h0, ih h]

/-- `setKey` never removes a key: any key present stays present. -/
theorem lookupKey_isSome_setKey {α : Type} (l : List (String × α)) (k k' : String) (v : α)
    (h : (lookupKey l k').isSome) : (lookupKey (setKey l k v) k').isSome := by
  by_cases e : k' = k
  · subst e
    simp [lookupKey_setKey_self]
  · rw [lookupKey_setKey_ne l k k' v e]
    exact h

/-- An `Except` computation is `isOk` exactly when it returns a value. -/
theorem except_isOk_iff {α : Type} {e : Except Unit α} : e.isOk = true ↔ ∃ a, e = .ok a := by
  cases e <;> simp [Except.isOk, Except.toBool]

/-- The agents presence section never raises on a dict workflow. -/
theorem crewai_agentsPresence_dict_ok (w : List (String × Val)) :
    (CrewAIAdapter.agentsPresenceErrors (.pydict w)).isOk = true := by
  unfold CrewAIAdapter.agentsPresenceErrors
  cases h : lookupKey w "agents" with
  | none => simp [pyContains, h, Except.bind, Except.isOk, Except.toBool]
  | some v =>
      cases v <;> simp [pyContains, pySubscript, h, Except.bind, Except.isOk, Except.toBool]

/-- The tasks presence section never raises on a dict workflow. -/
theorem crewai_tasksPresence_dict_ok (w : List (String × Val)) :
    (CrewAIAdapter.tasksPresenceErrors (.pydict w)).isOk = true := by
  unfold CrewAIAdapter.tasksPresenceErrors
  cases h : lookupKey w "tasks" with
  | none => simp [pyContains, h, Except.bind, Except.isOk, Except.toBool]
  | some v =>
      cases v <;> simp [pyContains, pySubscript, h, Except.bind, Except.isOk, Except.toBool]

/-- The agent-fields section never raises on a dict workflow. -/
theorem crewai_agentFields_dict_ok (w : List (String × Val)) :
    (CrewAIAdapter.agentFieldErrors (.pydict w)).isOk = true := by
  unfold CrewAIAdapter.agentFieldErrors
  cases h : lookupKey w "agents" with
  | none => simp [pyContains, h, Except.bind, Except.isOk, Except.toBool]
  | some v =>
      cases v <;> simp [pyContains, pySubscript, h, Except.bind, Except.isOk, Except.toBool]

/-- The agent-name comprehension never raises when the `agents` value is
absent or a list. -/
theorem crewai_agentNames_ok (w : List (String × Val))
    (h : lookupKey w "agents" = none ∨ ∃ l, lookupKey w "agents" = some (.pylist l)) :
    (CrewAIAdapter.agentNamesOf (.pydict w)).isOk = true := by
  unfold CrewAIAdapter.agentNamesOf
  rcases h with h | ⟨l, h⟩ <;>
    simp [pyGet, h, pyIter, Except.bind, Except.map, Except.isOk, Except.toBool]

/-- The task-fields-and-references section never raises on a dict
workflow whose `agents` value is absent or a list. -/
theorem crewai_taskErrors_dict_ok (w : List (String × Val))
    (h : lookupKey w "agents" = none ∨ ∃ l, lookupKey w "agents" = some (.pylist l)) :
    (CrewAIAdapter.taskErrors (.pydict w)).isOk = true := by
  unfold CrewAIAdapter.taskErrors
  cases ht : lookupKey w "tasks" with
  | none => simp [pyContains, ht, Except.bind, Except.isOk, Except.toBool]
  | some v =>
      cases v
      case pylist l =>
        obtain ⟨names, hn⟩ := except_isOk_iff.mp (crewai_agentNames_ok w h)
        simp [pyContains, pySubscript, ht, hn, Except.bind, Except.map, Except.isOk,
          Except.toBool]
      all_goals simp [pyContains, pySubscript, ht, Except.bind, Except.isOk, Except.toBool]

/-- The accumulated error list is the four sections appended in source
order, whenever none of them raises. -/
theorem crewai_bodyErrors_eq (w : Val) (a b c d : List String)
    (h1 : CrewAIAdapter.agentsPresenceErrors w = .ok a)
    (h2 : CrewAIAdapter.tasksPresenceErrors w = .ok b)
    (h3 : CrewAIAdapter.agentFieldErrors w = .ok c)
    (h4 : CrewAIAdapter.taskErrors w = .ok d) :
    CrewAIAdapter.bodyErrors w = .ok (a ++ b ++ c ++ d) := by
  simp [CrewAIAdapter.bodyErrors, h1, h2, h3, h4, Except.bind, Except.map]

/-- The nodes presence section never raises on a dict workflow. -/
theorem lang_nodesPresence_dict_ok (w : List (String × Val)) :
    (LangGraphAdapter.nodesPresenceErrors (.pydict w)).isOk = true := by
  unfold LangGraphAdapter.nodesPresenceErrors
  cases h : lookupKey w "nodes" with
  | none => simp [pyContains, h, Except.bind, Except.isOk, Except.toBool]
  | some v =>
      cases v <;> simp [pyContains, pySubscript, h, Except.bind, Except.isOk, Except.toBool]

/-- The edges presence section never raises on a dict workflow. -/
theorem lang_edgesPresence_dict_ok (w : List (String × Val)) :
    (LangGraphAdapter.edgesPresenceErrors (.pydict w)).isOk = true := by
  unfold LangGraphAdapter.edgesPresenceErrors
  cases h : lookupKey w "edges" with
  | none => simp [pyContains, h, Except.bind, Except.isOk, Except.toBool]
  | some v =>
      cases v <;> simp [pyContains, pySubscript, h, Except.bind, Except.isOk, Except.toBool]

/-- The node-fields section never raises on a dict workflow. -/
theorem lang_nodeFields_dict_ok (w : List (String × Val)) :
    (LangGraphAdapter.nodeFieldErrors (.pydict w)).isOk = true := by
  unfold LangGraphAdapter.nodeFieldErrors
  cases h : lookupKey w "nodes" with
  | none => simp [pyContains, h, Except.bind, Except.isOk, Except.toBool]
  | some v =>
      cases v <;> simp [pyContains, pySubscript, h, Except.bind, Except.isOk, Except.toBool]

/-- The node-id comprehension never raises when the `nodes` value is
absent or a list. -/
theorem lang_nodeIds_ok (w : List (String × Val))
    (h : lookupKey w "nodes" = none ∨ ∃ l, lookupKey w "nodes" = some (.pylist l)) :
    (LangGraphAdapter.nodeIdsOf (.pydict w)).isOk = true := by
  unfold LangGraphAdapter.nodeIdsOf
  rcases h with h | ⟨l, h⟩ <;>
    simp [pyGet, h, pyIter, Except.bind, Except.map, Except.isOk, Except.toBool]

/-- The edge-fields-and-references section never raises on a dict
workflow whose `nodes` value is absent or a list. -/
theorem lang_edgeErrors_dict_ok (w : List (String × Val))
    (h : lookupKey w "nodes" = none ∨ ∃ l, lookupKey w "nodes" = some (.pylist l)) :
    (LangGraphAdapter.edgeErrors (.pydict w)).isOk = true := by
  unfold LangGraphAdapter.edgeErrors
  cases ht : lookupKey w "edges" with
  | none => simp [pyContains, ht, Except.bind, Except.isOk, Except.toBool]
  | some v =>
      cases v
      case pylist l =>
        obtain ⟨ids, hn⟩ := except_isOk_iff.mp (lang_nodeIds_ok w h)
        simp [pyContains, pySubscript, ht, hn, Except.bind, Except.map, Except.isOk,
          Except.toBool]
      all_goals simp [pyContains, pySubscript, ht, Except.bind, Except.isOk, Except.toBool]

/-- The accumulated error list is the four sections appended in source
order, whenever none of them raises. -/
theorem lang_bodyErrors_eq (w : Val) (a b c d : List String)
    (h1 : LangGraphAdapter.nodesPresenceErrors w = .ok a)
    (h2 : LangGraphAdapter.edgesPresenceErrors w = .ok b)
    (h3 : LangGraphAdapter.nodeFieldErrors w = .ok c)
    (h4 : LangGraphAdapter.edgeErrors w = .ok d) :
    LangGraphAdapter.bodyErrors w = .ok (a ++ b ++ c ++ d) := by
  simp [LangGraphAdapter.bodyErrors, h1, h2, h3, h4, Except.bind, Except.map]

/-- `CrewAIAdapter.validate` returns a pair (does not raise) on a dict
config whose `workflow` value is a dict whose `agents` value is absent
or a list. -/
theorem crewai_validate_dict_ok (config : List (String × Val)) (w : List (String × Val))
    (hw : lookupKey config "workflow" = some (.pydict w))
    (h : lookupKey w "agents" = none ∨ ∃ l, lookupKey w "agents" = some (.pylist l)) :
    (CrewAIAdapter.validate config).isOk = true := by
  obtain ⟨a, h1⟩ := except_isOk_iff.mp (crewai_agentsPresence_dict_ok w)
  obtain ⟨b, h2⟩ := except_isOk_iff.mp (crewai_tasksPresence_dict_ok w)
  obtain ⟨c, h3⟩ := except_isOk_iff.mp (crewai_agentFields_dict_ok w)
  obtain ⟨d, h4⟩ := except_isOk_iff.mp (crewai_taskErrors_dict_ok w h)
  have hb := crewai_bodyErrors_eq _ a b c d h1 h2 h3 h4
  simp [CrewAIAdapter.validate, hw, hb, Except.map, Except.isOk, Except.toBool]

/-- `LangGraphAdapter.validate` returns a pair (does not raise) on a
dict config whose `workflow` value is a dict whose `nodes` value is
absent or a list. -/
theorem lang_validate_dict_ok (config : List (String × Val)) (w : List (String × Val))
    (hw : lookupKey config "workflow" = some (.pydict w))
    (h : lookupKey w "nodes" = none ∨ ∃ l, lookupKey w "nodes" = some (.pylist l)) :
    (LangGraphAdapter.validate config).isOk = true := by
  obtain ⟨a, h1⟩ := except_isOk_iff.mp (lang_nodesPresence_dict_ok w)
  obtain ⟨b, h2⟩ := except_isOk_iff.mp (lang_edgesPresence_dict_ok w)
  obtain ⟨c, h3⟩ := except_isOk_iff.mp (lang_nodeFields_dict_ok w)
  obtain ⟨d, h4⟩ := except_isOk_iff.mp (lang_edgeErrors_dict_ok w h)
  have hb := lang_bodyErrors_eq _ a b c d h1 h2 h3 h4
  simp [LangGraphAdapter.validate, hw, hb, Except.map, Except.isOk, Except.toBool]

/-- C1: the claim that a definition lacking the `agents` key yields
exactly one error and short-circuits is false: on Scenario C's input the
adapter accumulates the missing-`agents` error AND the tasks-collection
error "At least one task is required" — two errors, not one. -/
theorem crewai_missing_agents_two_errors :
    CrewAIAdapter.validate cfgMissingAgents
      = .ok (false, some ["Missing \x27agents\x27 field in workflow",
                          "At least one task is required"]) ∧
    CrewAIAdapter.validate cfgMissingAgents
      ≠ .ok (false, some ["Missing \x27agents\x27 field in workflow"]) := by
  constructor
  · rfl
  · intro h
    have h0 : CrewAIAdapter.validate cfgMissingAgents
        = .ok (false, some ["Missing \x27agents\x27 field in workflow",
                            "At least one task is required"]) := rfl
    rw [h0] at h
    simp at h

/-- C1 (amended): only a missing top-level `workflow` key short-circuits,
yielding exactly one error; a body lacking `agents` records the
missing-`agents` error first but validation continues, so further
(e.g. task-level) errors may follow it. -/
theorem crewai_missing_agents_accumulates :
    (∀ config : List (String × Val), lookupKey config "workflow" = none →
       CrewAIAdapter.validate config = .ok (false, some ["Missing \x27workflow\x27 field"])) ∧
    (∀ config w : List (String × Val),
       lookupKey config "workflow" = some (.pydict w) →
       lookupKey w "agents" = none →
       ∃ rest, CrewAIAdapter.validate config
         = .ok (false, some ("Missing \x27agents\x27 field in workflow" :: rest))) := by
  constructor
  · intro config h
    simp [CrewAIAdapter.validate, h]
  · intro config w hw ha
    have h1 : CrewAIAdapter.agentsPresenceErrors (.pydict w)
        = .ok ["Missing \x27agents\x27 field in workflow"] := by
      simp [CrewAIAdapter.agentsPresenceErrors, pyContains, ha, Except.bind]
    obtain ⟨b, h2⟩ := except_isOk_iff.mp (crewai_tasksPresence_dict_ok w)
    have h3 : CrewAIAdapter.agentFieldErrors (.pydict w) = .ok [] := by
      simp [CrewAIAdapter.agentFieldErrors, pyContains, ha, Except.bind]
    obtain ⟨d, h4⟩ := except_isOk_iff.mp (crewai_taskErrors_dict_ok w (Or.inl ha))
    have hb := crewai_bodyErrors_eq _ _ _ _ _ h1 h2 h3 h4
    refine ⟨b ++ [] ++ d, ?_⟩
    simp [CrewAIAdapter.validate, hw, hb, Except.map]

/-- Witness for the amended C1 statement at concrete inputs: the empty
config (missing `workflow`) and Scenario C's config (missing `agents`). -/
theorem crewai_missing_agents_accumulates_witness :
    CrewAIAdapter.validate [] = .ok (false, some ["Missing \x27workflow\x27 field"]) ∧
    ∃ rest, CrewAIAdapter.validate cfgMissingAgents
      = .ok (false, some ("Missing \x27agents\x27 field in workflow" :: rest)) :=
  ⟨crewai_missing_agents_accumulates.1 [] rfl,
   crewai_missing_agents_accumulates.2 cfgMissingAgents
     [("name", .pystr "W"), ("tasks", .pylist [])] rfl rfl⟩

/-- C2: the graph adapter accepts NO terminal sentinel: on the
repository's own test input (edge from "node1" to "END") it reports an
unknown-target error and rejects the definition, although the test
asserts the definition is valid. -/
theorem lang_end_target_rejected :
    LangGraphAdapter.validate cfgEndEdge
      = .ok (false, some ["Edge 0 references unknown target node: END"]) := rfl

/-- C3: validate is NOT total on all mappings: a `workflow` key holding
a non-mapping, non-iterable value (here the integer 0) makes the
membership test `"agents" not in workflow` raise `TypeError` in both
adapters. -/
theorem validate_raises_on_nonmapping_workflow :
    CrewAIAdapter.validate [("workflow", .pyint 0)] = .error () ∧
    LangGraphAdapter.validate [("workflow", .pyint 0)] = .error () :=
  ⟨rfl, rfl⟩

/-- C3 (amended): both validators return a `(bool, errors-or-none)` pair
without raising whenever the `workflow` key is absent, or its value is a
mapping whose `agents` (CrewAI) resp. `nodes` (LangGraph) value is
absent or a list. -/
theorem validate_total_on_wellshaped :
    ∀ config : List (String × Val),
      (lookupKey config "workflow" = none →
         (CrewAIAdapter.validate config).isOk = true ∧
         (LangGraphAdapter.validate config).isOk = true) ∧
      (∀ w : List (String × Val), lookupKey config "workflow" = some (.pydict w) →
         ((lookupKey w "agents" = none ∨ ∃ l, lookupKey w "agents" = some (.pylist l)) →
            (CrewAIAdapter.validate config).isOk = true) ∧
         ((lookupKey w "nodes" = none ∨ ∃ l, lookupKey w "nodes" = some (.pylist l)) →
            (LangGraphAdapter.validate config).isOk = true)) := by
  intro config
  constructor
  · intro h
    constructor <;>
      simp [CrewAIAdapter.validate, LangGraphAdapter.validate, h, Except.isOk, Except.toBool]
  · intro w hw
    exact ⟨fun h => crewai_validate_dict_ok config w hw h,
           fun h => lang_validate_dict_ok config w hw h⟩

/-- Witness for the amended C3 statement: Scenario A's definition for
the CrewAI adapter and a well-formed graph for the LangGraph adapter. -/
theorem validate_total_on_wellshaped_witness :
    (CrewAIAdapter.validate cfgScenarioA).isOk = true ∧
    (LangGraphAdapter.validate cfgGraphOk).isOk = true :=
  ⟨(((validate_total_on_wellshaped cfgScenarioA).2
       [("name", .pystr "W"),
        ("agents", .pylist
          [.pydict [("name", .pystr "a"), ("role", .pystr "r"), ("goal", .pystr "g"),
                    ("backstory", .pystr "b"), ("model", .pystr "m")]]),
        ("tasks", .pylist
          [.pydict [("name", .pystr "t"), ("description", .pystr "d"),
                    ("expectedOutput", .pystr "o"), ("agent", .pystr "a")]])] rfl).1
      (Or.inr ⟨_, rfl⟩)),
   (((validate_total_on_wellshaped cfgGraphOk).2
       [("name", .pystr "G"),
        ("nodes", .pylist
          [.pydict [("id", .pystr "node1"), ("type", .pystr "agent"),
                    ("config", .pydict [])],
           .pydict [("id", .pystr "node2"), ("type", .pystr "agent"),
                    ("config", .pydict [])]]),
        ("edges", .pylist
          [.pydict [("source", .pystr "node1"), ("target", .pystr "node2")]])] rfl).2
      (Or.inr ⟨_, rfl⟩))⟩

/-- Flag/error consistency of the CrewAI validator on every non-raising
run: the boolean is the emptiness of the accumulated list, and `some`
errors are never empty. -/
theorem crewai_flag_consistent (config : List (String × Val)) (b : Bool)
    (e : Option (List String)) (h : CrewAIAdapter.validate config = .ok (b, e)) :
    (b = true ↔ e = none ∨ e = some []) ∧ (∀ l, e = some l → b = false ∧ l ≠ []) := by
  unfold CrewAIAdapter.validate at h
  cases hw : lookupKey config "workflow" with
  | none =>
      rw [hw] at h
      simp only [Except.ok.injEq, Prod.mk.injEq] at h
      obtain ⟨hb, he⟩ := h
      subst hb
      subst he
      constructor
      · simp
      · intro l hl
        simp only [Option.some.injEq] at hl
        subst hl
        simp
  | some w =>
      rw [hw] at h
      change Except.map
          (fun errors => (errors.isEmpty, if errors.isEmpty then none else some errors))
          (CrewAIAdapter.bodyErrors w) = Except.ok (b, e) at h
      cases hbod : CrewAIAdapter.bodyErrors w with
      | error u =>
          rw [hbod] at h
          simp [Except.map] at h
      | ok errs =>
          rw [hbod] at h
          simp only [Except.map, Except.ok.injEq, Prod.mk.injEq] at h
          obtain ⟨hb, he⟩ := h
          subst hb
          subst he
          cases errs with
          | nil => simp
          | cons x xs =>
              constructor
              · simp
              · intro l hl
                constructor
                · simp
                · intro hnil
                  subst hnil
                  simp at hl

/-- Flag/error consistency of the LangGraph validator on every
non-raising run. -/
theorem lang_flag_consistent (config : List (String × Val)) (b : Bool)
    (e : Option (List String)) (h : LangGraphAdapter.validate config = .ok (b, e)) :
    (b = true ↔ e = none ∨ e = some []) ∧ (∀ l, e = some l → b = false ∧ l ≠ []) := by
  unfold LangGraphAdapter.validate at h
  cases hw : lookupKey config "workflow" with
  | none =>
      rw [hw] at h
      simp only [Except.ok.injEq, Prod.mk.injEq] at h
      obtain ⟨hb, he⟩ := h
      subst hb
      subst he
      constructor
      · simp
      · intro l hl
        simp only [Option.some.injEq] at hl
        subst hl
        simp
  | some w =>
      rw [hw] at h
      change Except.map
          (fun errors => (errors.isEmpty, if errors.isEmpty then none else some errors))
          (LangGraphAdapter.bodyErrors w) = Except.ok (b, e) at h
      cases hbod : LangGraphAdapter.bodyErrors w with
      | error u =>
          rw [hbod] at h
          simp [Except.map] at h
      | ok errs =>
          rw [hbod] at h
          simp only [Except.map, Except.ok.injEq, Prod.mk.injEq] at h
          obtain ⟨hb, he⟩ := h
          subst hb
          subst he
          cases errs with
          | nil => simp
          | cons x xs =>
              constructor
              · simp
              · intro l hl
                constructor
                · simp
                · intro hnil
                  subst hnil
                  simp at hl

/-- C7: for every input on which either adapter's validate returns, the
boolean is true exactly when the error component is the none sentinel
(or an empty list), and a returned `some` error list is never empty. -/
theorem validate_flag_errors_consistent (config : List (String × Val)) (b : Bool)
    (e : Option (List String))
    (h : CrewAIAdapter.validate config = .ok (b, e) ∨
         LangGraphAdapter.validate config = .ok (b, e)) :
    (b = true ↔ e = none ∨ e = some []) ∧ (∀ l, e = some l → b = false ∧ l ≠ []) := by
  rcases h with h | h
  · exact crewai_flag_consistent config b e h
  · exact lang_flag_consistent config b e h

/-- Witness for C7 at Scenario A's valid definition. -/
theorem validate_flag_errors_consistent_witness :
    (true = true ↔ (none : Option (List String)) = none ∨
       (none : Option (List String)) = some []) ∧
    (∀ l : List String, (none : Option (List String)) = some l → true = false ∧ l ≠ []) :=
  validate_flag_errors_consistent cfgScenarioA true none (Or.inl rfl)

/-- C4: executing any valid definition under a fresh run id stores a
running record at progress 0 and acknowledges "started"; an immediate
get_status sees running/0; stop then returns true; and a get_status
after the stop still finds the record, now stopped. -/
theorem crewai_execute_lifecycle (wid : String) (cfg : List (String × Val)) (st : Workflows)
    (hfresh : lookupKey st wid = none)
    (hvalid : CrewAIAdapter.validate cfg = .ok (true, none)) :
    CrewAIAdapter.execute wid cfg st
      = (.pydict [("workflow_id", .pystr wid), ("status", .pystr "started"),
                  ("message", .pystr "CrewAI workflow started successfully")],
         setKey st wid ⟨cfg, "running", 0⟩) ∧
    CrewAIAdapter.get_status wid (CrewAIAdapter.execute wid cfg st).2
      = .pydict [("workflow_id", .pystr wid), ("status", .pystr "running"),
                 ("progress", .pyint 0)] ∧
    (CrewAIAdapter.stop wid (CrewAIAdapter.execute wid cfg st).2).1 = true ∧
    CrewAIAdapter.get_status wid (CrewAIAdapter.stop wid (CrewAIAdapter.execute wid cfg st).2).2
      = .pydict [("workflow_id", .pystr wid), ("status", .pystr "stopped"),
                 ("progress", .pyint 0)] := by
  have hx : (CrewAIAdapter.execute wid cfg st).2 = setKey st wid ⟨cfg, "running", 0⟩ := rfl
  have hl : lookupKey (setKey st wid (⟨cfg, "running", 0⟩ : RunRecord)) wid
      = some ⟨cfg, "running", 0⟩ := lookupKey_setKey_self st wid _
  refine ⟨rfl, ?_, ?_, ?_⟩
  · simp [CrewAIAdapter.get_status, hx, hl]
  · simp [CrewAIAdapter.stop, hx, hl]
  · have hstop : CrewAIAdapter.stop wid (CrewAIAdapter.execute wid cfg st).2
        = (true, setKey (setKey st wid ⟨cfg, "running", 0⟩) wid ⟨cfg, "stopped", 0⟩) := by
      simp [CrewAIAdapter.stop, hx, hl]
    rw [hstop]
    simp [CrewAIAdapter.get_status, lookupKey_setKey_self]

/-- Witness for C4: Scenario A's definition executed on an empty store
under run id "r1". -/
theorem crewai_execute_lifecycle_witness :
    CrewAIAdapter.execute "r1" cfgScenarioA []
      = (.pydict [("workflow_id", .pystr "r1"), ("status", .pystr "started"),
                  ("message", .pystr "CrewAI workflow started successfully")],
         setKey [] "r1" ⟨cfgScenarioA, "running", 0⟩) ∧
    CrewAIAdapter.get_status "r1" (CrewAIAdapter.execute "r1" cfgScenarioA []).2
      = .pydict [("workflow_id", .pystr "r1"), ("status", .pystr "running"),
                 ("progress", .pyint 0)] ∧
    (CrewAIAdapter.stop "r1" (CrewAIAdapter.execute "r1" cfgScenarioA []).2).1 = true ∧
    CrewAIAdapter.get_status "r1"
        (CrewAIAdapter.stop "r1" (CrewAIAdapter.execute "r1" cfgScenarioA []).2).2
      = .pydict [("workflow_id", .pystr "r1"), ("status", .pystr "stopped"),
                 ("progress", .pyint 0)] :=
  crewai_execute_lifecycle "r1" cfgScenarioA [] rfl rfl

/-- C5: on both adapters, get_status of an unknown run id returns the
"not_found" sentinel record and stop returns false; on any known id,
stop returns true no matter the record's current status (in particular
when it is already "stopped"). -/
theorem unknown_run_sentinels (wid : String) (st : Workflows) :
    (lookupKey st wid = none →
       CrewAIAdapter.get_status wid st
         = .pydict [("workflow_id", .pystr wid), ("status", .pystr "not_found"),
                    ("error", .pystr "Workflow not found")] ∧
       CrewAIAdapter.stop wid st = (false, st) ∧
       LangGraphAdapter.get_status wid st
         = .pydict [("workflow_id", .pystr wid), ("status", .pystr "not_found"),
                    ("error", .pystr "Workflow not found")] ∧
       LangGraphAdapter.stop wid st = (false, st)) ∧
    (∀ r : RunRecord, lookupKey st wid = some r →
       (CrewAIAdapter.stop wid st).1 = true ∧ (LangGraphAdapter.stop wid st).1 = true) := by
  constructor
  · intro h
    refine ⟨?_, ?_, ?_, ?_⟩ <;>
      simp [CrewAIAdapter.get_status, CrewAIAdapter.stop,
        LangGraphAdapter.get_status, LangGraphAdapter.stop, h]
  · intro r h
    constructor <;> simp [CrewAIAdapter.stop, LangGraphAdapter.stop, h]

/-- Witness for C5: a store holding one already-stopped run "run1";
"ghostid" was never issued. -/
theorem unknown_run_sentinels_witness :
    (CrewAIAdapter.get_status "ghostid" [("run1", ⟨[], "stopped", 0⟩)]
       = .pydict [("workflow_id", .pystr "ghostid"), ("status", .pystr "not_found"),
                  ("error", .pystr "Workflow not found")] ∧
     CrewAIAdapter.stop "ghostid" [("run1", ⟨[], "stopped", 0⟩)]
       = (false, [("run1", ⟨[], "stopped", 0⟩)]) ∧
     LangGraphAdapter.get_status "ghostid" [("run1", ⟨[], "stopped", 0⟩)]
       = .pydict [("workflow_id", .pystr "ghostid"), ("status", .pystr "not_found"),
                  ("error", .pystr "Workflow not found")] ∧
     LangGraphAdapter.stop "ghostid" [("run1", ⟨[], "stopped", 0⟩)]
       = (false, [("run1", ⟨[], "stopped", 0⟩)])) ∧
    ((CrewAIAdapter.stop "run1" [("run1", ⟨[], "stopped", 0⟩)]).1 = true ∧
     (LangGraphAdapter.stop "run1" [("run1", ⟨[], "stopped", 0⟩)]).1 = true) :=
  ⟨(unknown_run_sentinels "ghostid" [("run1", ⟨[], "stopped", 0⟩)]).1 rfl,
   (unknown_run_sentinels "run1" [("run1", ⟨[], "stopped", 0⟩)]).2 ⟨[], "stopped", 0⟩ rfl⟩

/-- C8: for a framework registered under its lower-cased name, every
case variant of that name resolves successfully to the same registered
class as the name itself. -/
theorem factory_case_insensitive (reg : OrchestratorFactory.Registry)
    (name variant : String) (cls : AdapterClass)
    (hreg : lookupKey reg (strLower name) = some cls)
    (hvar : strLower variant = strLower name) :
    OrchestratorFactory.get_orchestrator reg variant = .ok cls ∧
    OrchestratorFactory.get_orchestrator reg variant
      = OrchestratorFactory.get_orchestrator reg name := by
  have h1 : OrchestratorFactory.get_orchestrator reg variant = .ok cls := by
    simp [OrchestratorFactory.get_orchestrator, hvar, hreg]
  have h2 : OrchestratorFactory.get_orchestrator reg name = .ok cls := by
    simp [OrchestratorFactory.get_orchestrator, hreg]
  exact ⟨h1, h1.trans h2.symm⟩

/-- Witness for C8: registering "CrewAI" and resolving "CREWAI" and
"crewai". -/
theorem factory_case_insensitive_witness :
    OrchestratorFactory.get_orchestrator
        (OrchestratorFactory.register [] "CrewAI" .crewai) "CREWAI" = .ok .crewai ∧
    OrchestratorFactory.get_orchestrator
        (OrchestratorFactory.register [] "CrewAI" .crewai) "CREWAI"
      = OrchestratorFactory.get_orchestrator
          (OrchestratorFactory.register [] "CrewAI" .crewai) "crewai" :=
  factory_case_insensitive (OrchestratorFactory.register [] "CrewAI" .crewai)
    "crewai" "CREWAI" .crewai rfl rfl

/-- C9: consuming either adapter's stream mutates the run store — under a
fresh run id it appends exactly one new record (status "running",
progress 0) and yields the started/0 and completed/100 updates carrying
that id; the stored record afterwards still has status "running". -/
theorem stream_inserts_run (wid : String) (cfg : List (String × Val)) (st : Workflows)
    (hfresh : lookupKey st wid = none) :
    CrewAIAdapter.stream wid cfg st
      = ([.pydict [("workflow_id", .pystr wid), ("status", .pystr "started"),
                   ("progress", .pyint 0)],
          .pydict [("workflow_id", .pystr wid), ("status", .pystr "completed"),
                   ("progress", .pyint 100)]],
         st ++ [(wid, ⟨cfg, "running", 0⟩)]) ∧
    CrewAIAdapter.get_status wid (CrewAIAdapter.stream wid cfg st).2
      = .pydict [("workflow_id", .pystr wid), ("status", .pystr "running"),
                 ("progress", .pyint 0)] ∧
    LangGraphAdapter.stream wid cfg st
      = ([.pydict [("workflow_id", .pystr wid), ("status", .pystr "started"),
                   ("progress", .pyint 0)],
          .pydict [("workflow_id", .pystr wid), ("status", .pystr "completed"),
                   ("progress", .pyint 100)]],
         st ++ [(wid, ⟨cfg, "running", 0⟩)]) ∧
    LangGraphAdapter.get_status wid (LangGraphAdapter.stream wid cfg st).2
      = .pydict [("workflow_id", .pystr wid), ("status", .pystr "running"),
                 ("progress", .pyint 0)] := by
  have hset := setKey_of_fresh st wid (⟨cfg, "running", 0⟩ : RunRecord) hfresh
  have hc : CrewAIAdapter.stream wid cfg st
      = ([.pydict [("workflow_id", .pystr wid), ("status", .pystr "started"),
                   ("progress", .pyint 0)],
          .pydict [("workflow_id", .pystr wid), ("status", .pystr "completed"),
                   ("progress", .pyint 100)]],
         setKey st wid ⟨cfg, "running", 0⟩) := rfl
  have hg : LangGraphAdapter.stream wid cfg st
      = ([.pydict [("workflow_id", .pystr wid), ("status", .pystr "started"),
                   ("progress", .pyint 0)],
          .pydict [("workflow_id", .pystr wid), ("status", .pystr "completed"),
                   ("progress", .pyint 100)]],
         setKey st wid ⟨cfg, "running", 0⟩) := rfl
  refine ⟨?_, ?_, ?_, ?_⟩
  · rw [hc, hset]
  · rw [hc]
    simp [CrewAIAdapter.get_status, lookupKey_setKey_self]
  · rw [hg, hset]
  · rw [hg]
    simp [LangGraphAdapter.get_status, lookupKey_setKey_self]

/-- Witness for C9: streaming Scenario A's definition on an empty store
under run id "s1". -/
theorem stream_inserts_run_witness :
    CrewAIAdapter.stream "s1" cfgScenarioA []
      = ([.pydict [("workflow_id", .pystr "s1"), ("status", .pystr "started"),
                   ("progress", .pyint 0)],
          .pydict [("workflow_id", .pystr "s1"), ("status", .pystr "completed"),
                   ("progress", .pyint 100)]],
         [] ++ [("s1", ⟨cfgScenarioA, "running", 0⟩)]) ∧
    CrewAIAdapter.get_status "s1" (CrewAIAdapter.stream "s1" cfgScenarioA []).2
      = .pydict [("workflow_id", .pystr "s1"), ("status", .pystr "running"),
                 ("progress", .pyint 0)] ∧
    LangGraphAdapter.stream "s1" cfgScenarioA []
      = ([.pydict [("workflow_id", .pystr "s1"), ("status", .pystr "started"),
                   ("progress", .pyint 0)],
          .pydict [("workflow_id", .pystr "s1"), ("status", .pystr "completed"),
                   ("progress", .pyint 100)]],
         [] ++ [("s1", ⟨cfgScenarioA, "running", 0⟩)]) ∧
    LangGraphAdapter.get_status "s1" (LangGraphAdapter.stream "s1" cfgScenarioA []).2
      = .pydict [("workflow_id", .pystr "s1"), ("status", .pystr "running"),
                 ("progress", .pyint 0)] :=
  stream_inserts_run "s1" cfgScenarioA [] rfl

/-- C10: on a known run id, both adapters' stop changes only that
record's status (config and progress preserved), leaves every other
record's lookup unchanged and the key sequence intact; and no adapter
operation (execute, stream, stop) ever removes a stored run record. -/
theorem stop_frame_preservation (wid : String) (st : Workflows) (r : RunRecord)
    (h : lookupKey st wid = some r) :
    CrewAIAdapter.stop wid st = (true, setKey st wid ⟨r.config, "stopped", r.progress⟩) ∧
    LangGraphAdapter.stop wid st = (true, setKey st wid ⟨r.config, "stopped", r.progress⟩) ∧
    lookupKey (setKey st wid (⟨r.config, "stopped", r.progress⟩ : RunRecord)) wid
      = some ⟨r.config, "stopped", r.progress⟩ ∧
    (∀ k, k ≠ wid →
       lookupKey (setKey st wid (⟨r.config, "stopped", r.progress⟩ : RunRecord)) k
         = lookupKey st k) ∧
    (setKey st wid (⟨r.config, "stopped", r.progress⟩ : RunRecord)).map Prod.fst
      = st.map Prod.fst ∧
    (∀ (k wid2 : String) (cfg2 : List (String × Val)),
       (lookupKey st k).isSome = true →
       (lookupKey (CrewAIAdapter.execute wid2 cfg2 st).2 k).isSome = true ∧
       (lookupKey (CrewAIAdapter.stream wid2 cfg2 st).2 k).isSome = true ∧
       (lookupKey (CrewAIAdapter.stop wid2 st).2 k).isSome = true ∧
       (lookupKey (LangGraphAdapter.execute wid2 cfg2 st).2 k).isSome = true ∧
       (lookupKey (LangGraphAdapter.stream wid2 cfg2 st).2 k).isSome = true ∧
       (lookupKey (LangGraphAdapter.stop wid2 st).2 k).isSome = true) := by
  refine ⟨by simp [CrewAIAdapter.stop, h], by simp [LangGraphAdapter.stop, h],
    lookupKey_setKey_self st wid _,
    fun k hk => lookupKey_setKey_ne st wid k _ hk,
    mapFst_setKey st wid _ (by simp [h]), ?_⟩
  intro k wid2 cfg2 hk
  have hstopc : (lookupKey (CrewAIAdapter.stop wid2 st).2 k).isSome = true := by
    cases hw2 : lookupKey st wid2 with
    | none => simpa [CrewAIAdapter.stop, hw2] using hk
    | some w =>
        simp only [CrewAIAdapter.stop, hw2]
        exact lookupKey_isSome_setKey st wid2 k _ hk
  have hstopg : (lookupKey (LangGraphAdapter.stop wid2 st).2 k).isSome = true := by
    cases hw2 : lookupKey st wid2 with
    | none => simpa [LangGraphAdapter.stop, hw2] using hk
    | some w =>
        simp only [LangGraphAdapter.stop, hw2]
        exact lookupKey_isSome_setKey st wid2 k _ hk
  exact ⟨lookupKey_isSome_setKey st wid2 k _ hk,
    lookupKey_isSome_setKey st wid2 k _ hk, hstopc,
    lookupKey_isSome_setKey st wid2 k _ hk,
    lookupKey_isSome_setKey st wid2 k _ hk, hstopg⟩

/-- Witness for C10: stopping the single running record "w1". -/
theorem stop_frame_preservation_witness :
    CrewAIAdapter.stop "w1" [("w1", ⟨[], "running", 0⟩)]
      = (true, setKey [("w1", ⟨[], "running", 0⟩)] "w1" ⟨[], "stopped", 0⟩) ∧
    LangGraphAdapter.stop "w1" [("w1", ⟨[], "running", 0⟩)]
      = (true, setKey [("w1", ⟨[], "running", 0⟩)] "w1" ⟨[], "stopped", 0⟩) ∧
    lookupKey (setKey [("w1", ⟨[], "running", 0⟩)] "w1"
        (⟨[], "stopped", 0⟩ : RunRecord)) "w1" = some ⟨[], "stopped", 0⟩ ∧
    (∀ k, k ≠ "w1" →
       lookupKey (setKey [("w1", ⟨[], "running", 0⟩)] "w1"
           (⟨[], "stopped", 0⟩ : RunRecord)) k
         = lookupKey [("w1", ⟨[], "running", 0⟩)] k) ∧
    (setKey [("w1", ⟨[], "running", 0⟩)] "w1"
        (⟨[], "stopped", 0⟩ : RunRecord)).map Prod.fst
      = [("w1", (⟨[], "running", 0⟩ : RunRecord))].map Prod.fst ∧
    (∀ (k wid2 : String) (cfg2 : List (String × Val)),
       (lookupKey [("w1", (⟨[], "running", 0⟩ : RunRecord))] k).isSome = true →
       (lookupKey (CrewAIAdapter.execute wid2 cfg2 [("w1", ⟨[], "running", 0⟩)]).2 k).isSome
         = true ∧
       (lookupKey (CrewAIAdapter.stream wid2 cfg2 [("w1", ⟨[], "running", 0⟩)]).2 k).isSome
         = true ∧
       (lookupKey (CrewAIAdapter.stop wid2 [("w1", ⟨[], "running", 0⟩)]).2 k).isSome
         = true ∧
       (lookupKey (LangGraphAdapter.execute wid2 cfg2 [("w1", ⟨[], "running", 0⟩)]).2 k).isSome
         = true ∧
       (lookupKey (LangGraphAdapter.stream wid2 cfg2 [("w1", ⟨[], "running", 0⟩)]).2 k).isSome
         = true ∧
       (lookupKey (LangGraphAdapter.stop wid2 [("w1", ⟨[], "running", 0⟩)]).2 k).isSome
         = true) :=
  stop_frame_preservation "w1" [("w1", ⟨[], "running", 0⟩)] ⟨[], "running", 0⟩ rfl

/-- If the i-th task is a dictionary whose `agent` value is not among
the declared agent names, the task loop emits the unknown-agent error
for it. -/
theorem taskLoop_unknown_agent_mem (names : List Val) :
    ∀ (l : List Val) (j i : Nat) (t : List (String × Val)) (av : Val),
      l.get? i = some (.pydict t) →
      lookupKey t "agent" = some av →
      names.contains av = false →
      ("Task " ++ toString (j + i) ++ " references unknown agent: " ++ pyStrOf av)
        ∈ CrewAIAdapter.taskLoop names j l := by
  intro l
  induction l with
  | nil =>
      intro j i t av h
      simp at h
  | cons x xs ih =>
      intro j i t av hget hagent hcont
      cases i with
      | zero =>
          simp only [List.get?_cons_zero, Option.some.injEq] at hget
          subst hget
          rw [Nat.add_zero]
          have hstep : CrewAIAdapter.taskLoop names j (Val.pydict t :: xs)
              = requiredFieldErrors "Task" j ["name", "description", "expectedOutput", "agent"] t
                ++ ["Task " ++ toString j ++ " references unknown agent: " ++ pyStrOf av]
                ++ CrewAIAdapter.taskLoop names (j + 1) xs := by
            simp only [CrewAIAdapter.taskLoop, hagent, hcont]
            simp
          rw [hstep]
          simp
      | succ n =>
          have harith : j + (n + 1) = j + 1 + n := by omega
          rw [harith]
          have htail := ih (j + 1) n t av (by simpa using hget) hagent hcont
          cases x <;> simp only [CrewAIAdapter.taskLoop] <;>
            first
              | exact List.mem_cons_of_mem _ htail
              | exact List.mem_append.mpr (Or.inr htail)

/-- C6: a task referencing an undeclared agent name makes the CrewAI
validator report invalid with an error naming the offending value; and
on the concrete ghost scenario, renaming the agent to "ghost" (nothing
else changed) turns the same definition valid with errors none. -/
theorem crewai_unknown_agent_reference
    (config w : List (String × Val)) (ts : List Val) (i : Nat)
    (t : List (String × Val)) (av : Val) (names : List Val)
    (hw : lookupKey config "workflow" = some (.pydict w))
    (hts : lookupKey w "tasks" = some (.pylist ts))
    (hnames : CrewAIAdapter.agentNamesOf (.pydict w) = .ok names)
    (hi : ts.get? i = some (.pydict t))
    (ha : lookupKey t "agent" = some av)
    (hc : names.contains av = false) :
    (∃ errs, CrewAIAdapter.validate config = .ok (false, some errs) ∧
       ("Task " ++ toString i ++ " references unknown agent: " ++ pyStrOf av) ∈ errs) ∧
    CrewAIAdapter.validate cfgGhost
      = .ok (false, some ["Task 0 references unknown agent: ghost"]) ∧
    CrewAIAdapter.validate cfgGhostRenamed = .ok (true, none) := by
  refine ⟨?_, rfl, rfl⟩
  have he4 : CrewAIAdapter.taskErrors (.pydict w)
      = .ok (CrewAIAdapter.taskLoop names 0 ts) := by
    simp [CrewAIAdapter.taskErrors, pyContains, pySubscript, hts, hnames,
      Except.bind, Except.map]
  obtain ⟨a, h1⟩ := except_isOk_iff.mp (crewai_agentsPresence_dict_ok w)
  obtain ⟨b, h2⟩ := except_isOk_iff.mp (crewai_tasksPresence_dict_ok w)
  obtain ⟨c, h3⟩ := except_isOk_iff.mp (crewai_agentFields_dict_ok w)
  have hb := crewai_bodyErrors_eq _ a b c _ h1 h2 h3 he4
  have hmem0 := taskLoop_unknown_agent_mem names ts 0 i t av hi ha hc
  rw [Nat.zero_add] at hmem0
  have hmem : ("Task " ++ toString i ++ " references unknown agent: " ++ pyStrOf av)
      ∈ a ++ b ++ c ++ CrewAIAdapter.taskLoop names 0 ts :=
    List.mem_append.mpr (Or.inr hmem0)
  have hne : (a ++ b ++ c ++ CrewAIAdapter.taskLoop names 0 ts) ≠ [] :=
    List.ne_nil_of_mem hmem
  have hempty : (a ++ b ++ c ++ CrewAIAdapter.taskLoop names 0 ts).isEmpty = false := by
    cases hcase : a ++ b ++ c ++ CrewAIAdapter.taskLoop names 0 ts with
    | nil => exact absurd hcase hne
    | cons y ys => simp
  refine ⟨a ++ b ++ c ++ CrewAIAdapter.taskLoop names 0 ts, ?_, hmem⟩
  simp [CrewAIAdapter.validate, hw, hb, Except.map, hempty]
  intro ha' hb' hc' htl
  apply hne
  simp [ha', hb', hc', htl]

/-- Witness for C6 at the ghost scenario itself. -/
theorem crewai_unknown_agent_reference_witness :
    (∃ errs, CrewAIAdapter.validate cfgGhost = .ok (false, some errs) ∧
       ("Task " ++ toString 0 ++ " references unknown agent: "
          ++ pyStrOf (.pystr "ghost")) ∈ errs) ∧
    CrewAIAdapter.validate cfgGhost
      = .ok (false, some ["Task 0 references unknown agent: ghost"]) ∧
    CrewAIAdapter.validate cfgGhostRenamed = .ok (true, none) :=
  crewai_unknown_agent_reference cfgGhost
    [("name", .pystr "W"),
     ("agents", .pylist
       [.pydict [("name", .pystr "a"), ("role", .pystr "r"), ("goal", .pystr "g"),
                 ("backstory", .pystr "b"), ("model", .pystr "m")]]),
     ("tasks", .pylist
       [.pydict [("name", .pystr "t"), ("description", .pystr "d"),
                 ("expectedOutput", .pystr "o"), ("agent", .pystr "ghost")]])]
    [.pydict [("name", .pystr "t"), ("description", .pystr "d"),
              ("expectedOutput", .pystr "o"), ("agent", .pystr "ghost")]]
    0
    [("name", .pystr "t"), ("description", .pystr "d"),
     ("expectedOutput", .pystr "o"), ("agent", .pystr "ghost")]
    (.pystr "ghost") [.pystr "a"] rfl rfl rfl rfl rfl rfl
